import Mathlib

/-!
Shallow embedding of the ts-results-es library (src/option.ts and
src/result.ts) and proofs about its combinator algebra and the
namespace-level helpers (`all`, `any`, `wrap`, `wrapAsync`).

Modelling conventions:
- The TypeScript union `Option<T> = Some<T> | None` becomes the inductive
  `TSOption`, and `Result<T, E> = Ok<T> | Err<E>` becomes `TSResult`
  (prefixed to avoid clashing with Lean's built-in types).
- A TypeScript `throw` is embedded as `Except.error`; methods whose bodies
  contain no `throw` are embedded as plain total functions.
- The raised error objects (spec: UnwrapError) are modelled by the
  `UnwrapError` structure holding the message string and the optional
  `cause` payload.
- The external `toString` helper (utils.ts, not part of the analysed
  sources) and the per-instance `_stack` provenance string captured by the
  `Err` constructor are passed as parameters (`ts`, `stack`) to the methods
  whose observable behaviour mentions them.
- Variadic parameters (`...options`, `...results`) are modelled as `List`s;
  the `for`-loops with early `return` in `all`/`any` are embedded as the
  structurally recursive `allLoop`/`anyLoop` functions, with the
  accumulator array (`push` appends on the right) threaded explicitly.
-/

namespace TsResultsEs

/-- Embeds the `Option<T>` sum type of option.ts: `SomeImpl<T>` wraps one
value, `NoneImpl` is the empty variant (exported as the `None` singleton). -/
inductive TSOption (α : Type) where
  | Some (val : α)
  | None
  deriving DecidableEq, Repr

/-- Embeds the `Result<T, E>` sum type of result.ts: `OkImpl<T>` wraps the
success value, `ErrImpl<E>` wraps the error value. -/
inductive TSResult (τ : Type) (ε : Type) where
  | Ok (val : τ)
  | Err (val : ε)
  deriving DecidableEq, Repr

/-- The `some` discriminant flag (`readonly some: boolean`). -/
def TSOption.some {α : Type} : TSOption α → Bool
  | TSOption.Some _ => true
  | TSOption.None => false

/-- The `none` discriminant flag (`readonly none: boolean`). -/
def TSOption.none {α : Type} : TSOption α → Bool
  | TSOption.Some _ => false
  | TSOption.None => true

/-- The `ok` discriminant flag (`readonly ok: boolean`). -/
def TSResult.ok {τ ε : Type} : TSResult τ ε → Bool
  | TSResult.Ok _ => true
  | TSResult.Err _ => false

/-- The `err` discriminant flag (`readonly err: boolean`). -/
def TSResult.err {τ ε : Type} : TSResult τ ε → Bool
  | TSResult.Ok _ => false
  | TSResult.Err _ => true

/-- The error object raised by the unsafe accessors (spec name:
UnwrapError).  In the source it is a JavaScript `Error` built from a
message string, optionally carrying the payload as its `cause`. -/
structure UnwrapError (χ : Type) where
  message : String
  cause : Option χ
  deriving DecidableEq, Repr

/-- `BaseOption.expect(msg)`: `SomeImpl.expect` returns `this.val`;
`NoneImpl.expect` does `throw new Error(msg)` (message exactly `msg`,
no cause). -/
def TSOption.expect {α : Type} : TSOption α → String → Except (UnwrapError Empty) α
  | TSOption.Some v, _ => Except.ok v
  | TSOption.None, msg => Except.error ⟨msg, Option.none⟩

/-- `BaseOption.unwrap()`: `SomeImpl.unwrap` returns `this.val`;
`NoneImpl.unwrap` throws with the fixed message. -/
def TSOption.unwrap {α : Type} : TSOption α → Except (UnwrapError Empty) α
  | TSOption.Some v => Except.ok v
  | TSOption.None => Except.error ⟨"Tried to unwrap None", Option.none⟩

/-- `BaseOption.unwrapOr(val)` (specialised to a single value type). -/
def TSOption.unwrapOr {α : Type} : TSOption α → α → α
  | TSOption.Some v, _ => v
  | TSOption.None, d => d

/-- `BaseOption.map(mapper)`: re-wraps `mapper(this.val)` in `Some`;
`NoneImpl.map` returns `this`. -/
def TSOption.map {α β : Type} : TSOption α → (α → β) → TSOption β
  | TSOption.Some v, mapper => TSOption.Some (mapper v)
  | TSOption.None, _ => TSOption.None

/-- `BaseOption.mapOr(default_, mapper)`. -/
def TSOption.mapOr {α β : Type} : TSOption α → β → (α → β) → β
  | TSOption.Some v, _, mapper => mapper v
  | TSOption.None, default_, _ => default_

/-- `BaseOption.mapOrElse(default_, mapper)`; the lazily evaluated
`default_` thunk is modelled as a `Unit → β` function. -/
def TSOption.mapOrElse {α β : Type} : TSOption α → (Unit → β) → (α → β) → β
  | TSOption.Some v, _, mapper => mapper v
  | TSOption.None, default_, _ => default_ ()

/-- `BaseOption.andThen(mapper)`: returns `mapper(this.val)` directly on
`Some`; `NoneImpl.andThen` returns `this`. -/
def TSOption.andThen {α β : Type} : TSOption α → (α → TSOption β) → TSOption β
  | TSOption.Some v, mapper => mapper v
  | TSOption.None, _ => TSOption.None

/-- `BaseOption.or(other)`: eager fallback. -/
def TSOption.or {α : Type} : TSOption α → TSOption α → TSOption α
  | TSOption.Some v, _ => TSOption.Some v
  | TSOption.None, other => other

/-- `BaseOption.orElse(other)`: lazy fallback, `other` modelled as a
thunk that is applied only on the `None` branch. -/
def TSOption.orElse {α : Type} : TSOption α → (Unit → TSOption α) → TSOption α
  | TSOption.Some v, _ => TSOption.Some v
  | TSOption.None, other => other ()

/-- `BaseOption.toResult(error)`: `SomeImpl.toResult` ignores the error
argument and returns `Ok(this.val)`; `NoneImpl.toResult` returns
`Err(error)`. -/
def TSOption.toResult {α ε : Type} : TSOption α → ε → TSResult α ε
  | TSOption.Some v, _ => TSResult.Ok v
  | TSOption.None, error => TSResult.Err error

/-- `toString()`: renders through the external stringification helper
`ts`. -/
def TSOption.toString {α : Type} (ts : α → String) : TSOption α → String
  | TSOption.Some v => "Some(" ++ ts v ++ ")"
  | TSOption.None => "None"

/-- The `Symbol.iterator` implementation: for `Some`, if the inner value is
itself iterable its own iterator is returned, otherwise an immediately-done
iterator; for `None`, always an immediately-done iterator.  The dynamic
iterability test (`Symbol.iterator in Object(this.val)`) is modelled by the
parameter `iterElems`, returning the value's element sequence when the
value is iterable and `Option.none` when it is not. -/
def TSOption.iter {α ι : Type} (iterElems : α → Option (List ι)) : TSOption α → List ι
  | TSOption.Some v =>
      match iterElems v with
      | Option.some elems => elems
      | Option.none => []
  | TSOption.None => []

/-- The loop of `Option.all` with its accumulator array `someOption`
(`push` appends on the right); the `else` branch returns the offending
input itself, which is the `None` singleton. -/
def TSOption.allLoop {α : Type} (someOption : List α) : List (TSOption α) → TSOption (List α)
  | [] => TSOption.Some someOption
  | TSOption.Some v :: rest => TSOption.allLoop (someOption ++ [v]) rest
  | TSOption.None :: _ => TSOption.None

/-- `Option.all(...options)`. -/
def TSOption.all {α : Type} (options : List (TSOption α)) : TSOption (List α) :=
  TSOption.allLoop [] options

/-- `Option.any(...options)`: the loop body returns the current input in
BOTH branches of its conditional, so the first input is returned verbatim;
the trailing `return None` is reached only on an empty input list. -/
def TSOption.any {α : Type} : List (TSOption α) → TSOption α
  | [] => TSOption.None
  | TSOption.Some v :: _ => TSOption.Some v
  | TSOption.None :: _ => TSOption.None

/-- `BaseResult.expect(msg)`: `OkImpl.expect` returns `this.val`;
`ErrImpl.expect` throws an error whose message concatenates `msg`, the
separator, the stringified error value and the `_stack` provenance text,
with `cause` set to the wrapped error value. -/
def TSResult.expect {τ ε : Type} (ts : ε → String) (stack : String) :
    TSResult τ ε → String → Except (UnwrapError ε) τ
  | TSResult.Ok v, _ => Except.ok v
  | TSResult.Err e, msg =>
      Except.error ⟨msg ++ " - Error: " ++ ts e ++ "\n" ++ stack, Option.some e⟩

/-- `BaseResult.unwrap()`: `OkImpl.unwrap` returns `this.val`;
`ErrImpl.unwrap` throws with the fixed prefix, the stringified error, the
provenance text, and `cause` set to the error value. -/
def TSResult.unwrap {τ ε : Type} (ts : ε → String) (stack : String) :
    TSResult τ ε → Except (UnwrapError ε) τ
  | TSResult.Ok v => Except.ok v
  | TSResult.Err e =>
      Except.error ⟨"Tried to unwrap Error: " ++ ts e ++ "\n" ++ stack, Option.some e⟩

/-- `BaseResult.expectErr(msg)`: `ErrImpl.expectErr` returns `this.val`;
`OkImpl.expectErr` does `throw new Error(msg)` (no cause). -/
def TSResult.expectErr {τ ε : Type} : TSResult τ ε → String → Except (UnwrapError τ) ε
  | TSResult.Err e, _ => Except.ok e
  | TSResult.Ok _, msg => Except.error ⟨msg, Option.none⟩

/-- `BaseResult.unwrapErr()`: `ErrImpl.unwrapErr` returns `this.val`;
`OkImpl.unwrapErr` throws embedding the stringified success value, with
`cause` set to it (an `Ok` has no `_stack`). -/
def TSResult.unwrapErr {τ ε : Type} (ts : τ → String) :
    TSResult τ ε → Except (UnwrapError τ) ε
  | TSResult.Err e => Except.ok e
  | TSResult.Ok v => Except.error ⟨"Tried to unwrap Ok: " ++ ts v, Option.some v⟩

/-- `BaseResult.unwrapOr(val)` (specialised to a single value type). -/
def TSResult.unwrapOr {τ ε : Type} : TSResult τ ε → τ → τ
  | TSResult.Ok v, _ => v
  | TSResult.Err _, d => d

/-- The deprecated `BaseResult.else(val)` (named `elseMethod` because
`else` is a Lean keyword); same behaviour as `unwrapOr`. -/
def TSResult.elseMethod {τ ε : Type} : TSResult τ ε → τ → τ
  | TSResult.Ok v, _ => v
  | TSResult.Err _, d => d

/-- `BaseResult.map(mapper)`. -/
def TSResult.map {τ ε β : Type} : TSResult τ ε → (τ → β) → TSResult β ε
  | TSResult.Ok v, mapper => TSResult.Ok (mapper v)
  | TSResult.Err e, _ => TSResult.Err e

/-- `BaseResult.mapErr(mapper)`. -/
def TSResult.mapErr {τ ε φ : Type} : TSResult τ ε → (ε → φ) → TSResult τ φ
  | TSResult.Ok v, _ => TSResult.Ok v
  | TSResult.Err e, mapper => TSResult.Err (mapper e)

/-- `BaseResult.mapOr(default_, mapper)`. -/
def TSResult.mapOr {τ ε β : Type} : TSResult τ ε → β → (τ → β) → β
  | TSResult.Ok v, _, mapper => mapper v
  | TSResult.Err _, default_, _ => default_

/-- `BaseResult.mapOrElse(default_, mapper)`. -/
def TSResult.mapOrElse {τ ε β : Type} : TSResult τ ε → (Unit → β) → (τ → β) → β
  | TSResult.Ok v, _, mapper => mapper v
  | TSResult.Err _, default_, _ => default_ ()

/-- `BaseResult.andThen(mapper)`: `OkImpl.andThen` returns
`mapper(this.val)`; `ErrImpl.andThen` returns `this`. -/
def TSResult.andThen {τ ε β : Type} : TSResult τ ε → (τ → TSResult β ε) → TSResult β ε
  | TSResult.Ok v, mapper => mapper v
  | TSResult.Err e, _ => TSResult.Err e

/-- `BaseResult.or(other)`: eager fallback. -/
def TSResult.or {τ ε : Type} : TSResult τ ε → TSResult τ ε → TSResult τ ε
  | TSResult.Ok v, _ => TSResult.Ok v
  | TSResult.Err _, other => other

/-- `BaseResult.orElse(other)`: lazy fallback (thunk applied only on the
`Err` branch). -/
def TSResult.orElse {τ ε : Type} : TSResult τ ε → (Unit → TSResult τ ε) → TSResult τ ε
  | TSResult.Ok v, _ => TSResult.Ok v
  | TSResult.Err _, other => other ()

/-- `BaseResult.toOption()`: `Ok(v) -> Some(v)`; `Err(_) -> None`. -/
def TSResult.toOption {τ ε : Type} : TSResult τ ε → TSOption τ
  | TSResult.Ok v => TSOption.Some v
  | TSResult.Err _ => TSOption.None

/-- `toString()` for results, through the two stringification helpers. -/
def TSResult.toString {τ ε : Type} (tsv : τ → String) (tse : ε → String) :
    TSResult τ ε → String
  | TSResult.Ok v => "Ok(" ++ tsv v ++ ")"
  | TSResult.Err e => "Err(" ++ tse e ++ ")"

/-- The `Symbol.iterator` implementation for results, analogous to
`TSOption.iter`. -/
def TSResult.iter {τ ε ι : Type} (iterElems : τ → Option (List ι)) : TSResult τ ε → List ι
  | TSResult.Ok v =>
      match iterElems v with
      | Option.some elems => elems
      | Option.none => []
  | TSResult.Err _ => []

/-- The loop of `Result.all` with its accumulator array `okResult`; the
`else` branch returns the offending `Err` input itself. -/
def TSResult.allLoop {τ ε : Type} (okResult : List τ) : List (TSResult τ ε) → TSResult (List τ) ε
  | [] => TSResult.Ok okResult
  | TSResult.Ok v :: rest => TSResult.allLoop (okResult ++ [v]) rest
  | TSResult.Err e :: _ => TSResult.Err e

/-- `Result.all(...results)`. -/
def TSResult.all {τ ε : Type} (results : List (TSResult τ ε)) : TSResult (List τ) ε :=
  TSResult.allLoop [] results

/-- The loop of `Result.any` with its accumulator array `errResult`: an
`Ok` input is returned immediately; an `Err` input has its value pushed;
after the loop the collected errors are wrapped in a fresh `Err`. -/
def TSResult.anyLoop {τ ε : Type} (errResult : List ε) : List (TSResult τ ε) → TSResult τ (List ε)
  | [] => TSResult.Err errResult
  | TSResult.Ok v :: _ => TSResult.Ok v
  | TSResult.Err e :: rest => TSResult.anyLoop (errResult ++ [e]) rest

/-- `Result.any(...results)`. -/
def TSResult.any {τ ε : Type} (results : List (TSResult τ ε)) : TSResult τ (List ε) :=
  TSResult.anyLoop [] results

/-- `Result.wrap(op)`: the synchronous computation `op` either returns a
value or raises one, modelled as an `Except` outcome; a normal return is
wrapped in `Ok`, a raised value is captured as-is in `Err`. -/
def TSResult.wrap {τ ε : Type} (op : Except ε τ) : TSResult τ ε :=
  match op with
  | Except.ok v => TSResult.Ok v
  | Except.error e => TSResult.Err e

/-- The settlement of a JavaScript promise: fulfilled with a value or
rejected with a reason. -/
inductive Settled (τ : Type) (ε : Type) where
  | fulfilled (val : τ)
  | rejected (reason : ε)
  deriving DecidableEq, Repr

/-- `Result.wrapAsync(op)`: invoking `op` either raises synchronously
(caught by the `try`/`catch`, yielding a resolved `Err`) or yields a
promise whose settlement the `.then`/`.catch` chain converts to a
fulfilled `Ok`/`Err`.  The returned promise's rejection type is `Empty`:
it can never reject. -/
def TSResult.wrapAsync {τ ε : Type} (op : Except ε (Settled τ ε)) :
    Settled (TSResult τ ε) Empty :=
  match op with
  | Except.error e => Settled.fulfilled (TSResult.Err e)
  | Except.ok (Settled.fulfilled v) => Settled.fulfilled (TSResult.Ok v)
  | Except.ok (Settled.rejected e) => Settled.fulfilled (TSResult.Err e)

theorem TSOption.allLoop_map_some {α : Type} (acc vs : List α) (l : List (TSOption α)) :
    TSOption.allLoop acc (vs.map TSOption.Some ++ l) = TSOption.allLoop (acc ++ vs) l := by
  induction vs generalizing acc with
  | nil => simp
  | cons v vs ih =>
      simp only [List.map_cons, List.cons_append, TSOption.allLoop, List.append_eq]
      rw [ih]
      simp

theorem TSResult.allLoop_map_ok {τ ε : Type} (acc vs : List τ) (l : List (TSResult τ ε)) :
    TSResult.allLoop acc (vs.map TSResult.Ok ++ l) = TSResult.allLoop (acc ++ vs) l := by
  induction vs generalizing acc with
  | nil => simp
  | cons v vs ih =>
      simp only [List.map_cons, List.cons_append, TSResult.allLoop, List.append_eq]
      rw [ih]
      simp

theorem TSResult.anyLoop_map_err {τ ε : Type} (acc es : List ε) (l : List (TSResult τ ε)) :
    TSResult.anyLoop acc (es.map TSResult.Err ++ l) = TSResult.anyLoop (acc ++ es) l := by
  induction es generalizing acc with
  | nil => simp
  | cons e es ih =>
      simp only [List.map_cons, List.cons_append, TSResult.anyLoop, List.append_eq]
      rw [ih]
      simp

/-- C1: for every non-empty input sequence, `Option.any` returns the first
input verbatim, whether that input is `Some` or `None` (it does not scan
onward for a `Some`); for the empty input sequence it returns `None`. -/
theorem C1_option_any_returns_first_input {α : Type} :
    (∀ (o : TSOption α) (rest : List (TSOption α)), TSOption.any (o :: rest) = o)
    ∧ TSOption.any ([] : List (TSOption α)) = TSOption.None := by
  constructor
  · intro o rest
    cases o <;> rfl
  · rfl

/-- C2: `Result.any` scans left-to-right and returns the first `Ok` input
itself as soon as one is found (any such input sequence decomposes as a
prefix of `Err`s followed by the first `Ok`); if no input is `Ok`, it
returns `Err` of the list of all the inputs' error values in input
order. -/
theorem C2_result_any_first_ok_or_err_list {τ ε : Type} :
    (∀ (es : List ε) (v : τ) (rest : List (TSResult τ ε)),
        TSResult.any (es.map TSResult.Err ++ TSResult.Ok v :: rest) = TSResult.Ok v)
    ∧ (∀ es : List ε, TSResult.any ((es.map TSResult.Err : List (TSResult τ ε))) = TSResult.Err es) := by
  constructor
  · intro es v rest
    have h := TSResult.anyLoop_map_err ([] : List ε) es (TSResult.Ok v :: rest)
    simpa [TSResult.any, TSResult.anyLoop] using h
  · intro es
    have h := TSResult.anyLoop_map_err ([] : List ε) es ([] : List (TSResult τ ε))
    simpa [TSResult.any, TSResult.anyLoop] using h

/-- C3: `Option.all` (resp. `Result.all`) iterates left-to-right and
returns the first `None` (resp. the first `Err` input itself) encountered;
if every input is `Some` (resp. `Ok`), it returns `Some` (resp. `Ok`) of
the list of the unwrapped values in input order. -/
theorem C3_all_first_failure_or_values {α τ ε : Type} :
    (∀ vs : List α, TSOption.all (vs.map TSOption.Some) = TSOption.Some vs)
    ∧ (∀ (vs : List α) (rest : List (TSOption α)),
        TSOption.all (vs.map TSOption.Some ++ TSOption.None :: rest) = TSOption.None)
    ∧ (∀ vs : List τ, TSResult.all ((vs.map TSResult.Ok : List (TSResult τ ε))) = TSResult.Ok vs)
    ∧ (∀ (vs : List τ) (e : ε) (rest : List (TSResult τ ε)),
        TSResult.all (vs.map TSResult.Ok ++ TSResult.Err e :: rest) = TSResult.Err e) := by
  refine ⟨?_, ?_, ?_, ?_⟩
  · intro vs
    have h := TSOption.allLoop_map_some ([] : List α) vs ([] : List (TSOption α))
    simpa [TSOption.all, TSOption.allLoop] using h
  · intro vs rest
    have h := TSOption.allLoop_map_some ([] : List α) vs (TSOption.None :: rest)
    simpa [TSOption.all, TSOption.allLoop] using h
  · intro vs
    have h := TSResult.allLoop_map_ok ([] : List τ) vs ([] : List (TSResult τ ε))
    simpa [TSResult.all, TSResult.allLoop] using h
  · intro vs e rest
    have h := TSResult.allLoop_map_ok ([] : List τ) vs (TSResult.Err e :: rest)
    simpa [TSResult.all, TSResult.allLoop] using h

/-- C4: `Result.wrap` returns `Ok` of the return value on a normal return
and `Err` of exactly the raised value on a raise; `Result.wrapAsync`
fulfills with `Ok(value)` on successful settlement, with `Err(reason)` on
rejection or a synchronous raise from the function itself, and the promise
it returns is always fulfilled (rejection type `Empty`), never rejected. -/
theorem C4_wrap_and_wrapAsync_convert_exceptions {τ ε : Type} :
    (∀ v : τ, TSResult.wrap (Except.ok v : Except ε τ) = TSResult.Ok v)
    ∧ (∀ e : ε, TSResult.wrap (Except.error e : Except ε τ) = TSResult.Err e)
    ∧ (∀ v : τ, TSResult.wrapAsync (Except.ok (Settled.fulfilled v) : Except ε (Settled τ ε))
        = Settled.fulfilled (TSResult.Ok v))
    ∧ (∀ e : ε, TSResult.wrapAsync (Except.ok (Settled.rejected e) : Except ε (Settled τ ε))
        = Settled.fulfilled (TSResult.Err e))
    ∧ (∀ e : ε, TSResult.wrapAsync (Except.error e : Except ε (Settled τ ε))
        = Settled.fulfilled (TSResult.Err e))
    ∧ (∀ op : Except ε (Settled τ ε), ∃ r, TSResult.wrapAsync op = Settled.fulfilled r) := by
  refine ⟨fun v => rfl, fun e => rfl, fun v => rfl, fun e => rfl, fun e => rfl, ?_⟩
  intro op
  match op with
  | Except.error e => exact ⟨TSResult.Err e, rfl⟩
  | Except.ok (Settled.fulfilled v) => exact ⟨TSResult.Ok v, rfl⟩
  | Except.ok (Settled.rejected e) => exact ⟨TSResult.Err e, rfl⟩

/-- C5: `None.unwrap()` and `None.expect(msg)` always raise an UnwrapError
and `None.expect(msg)`'s message is exactly `msg`; `Err(e).expect(msg)`
raises an UnwrapError whose message is `msg` followed by the stringified
error value and the provenance text, with cause `e`; `Err(e).unwrap()`
raises analogously with the fixed prefix. -/
theorem C5_unsafe_accessor_errors {α τ ε : Type} :
    (∀ msg : String,
        TSOption.expect (TSOption.None : TSOption α) msg = Except.error ⟨msg, Option.none⟩)
    ∧ TSOption.unwrap (TSOption.None : TSOption α)
        = Except.error ⟨"Tried to unwrap None", Option.none⟩
    ∧ (∀ (ts : ε → String) (stack : String) (e : ε) (msg : String),
        TSResult.expect ts stack (TSResult.Err e : TSResult τ ε) msg
          = Except.error ⟨msg ++ " - Error: " ++ ts e ++ "\n" ++ stack, Option.some e⟩)
    ∧ (∀ (ts : ε → String) (stack : String) (e : ε),
        TSResult.unwrap ts stack (TSResult.Err e : TSResult τ ε)
          = Except.error ⟨"Tried to unwrap Error: " ++ ts e ++ "\n" ++ stack, Option.some e⟩) :=
  ⟨fun _ => rfl, rfl, fun _ _ _ _ => rfl, fun _ _ _ => rfl⟩

/-- C6: the round-trip conversions between the two families:
`Some(v).toResult(e).toOption() = Some(v)`,
`None.toResult(e).toOption() = None`,
`Ok(v).toOption().toResult(e2) = Ok(v)`, and
`Err(e).toOption() = None` (the error is discarded). -/
theorem C6_option_result_roundtrip {α ε : Type} :
    ∀ (v : α) (e e2 : ε),
      (((TSOption.Some v).toResult e).toOption = TSOption.Some v)
      ∧ (((TSOption.None : TSOption α).toResult e).toOption = TSOption.None)
      ∧ ((TSResult.Ok v : TSResult α ε).toOption.toResult e2 = TSResult.Ok v)
      ∧ ((TSResult.Err e : TSResult α ε).toOption = TSOption.None) :=
  fun _ _ _ => ⟨rfl, rfl, rfl, rfl⟩

/-- C7: every operation other than the four unsafe accessors is total over
its variant pair.  The unsafe accessors succeed exactly on the matching
discriminant (first two conjuncts); every other method, embedded as a plain
function because its body contains no `throw`, returns the stated value on
each of the two discriminants (remaining conjuncts), so no other operation
can raise on its own. -/
theorem C7_combinators_total_unsafe_characterized {α β τ ε : Type} :
    (∀ (o : TSOption α) (msg : String),
        (TSOption.expect o msg).isOk = o.some ∧ (TSOption.unwrap o).isOk = o.some)
    ∧ (∀ (r : TSResult τ ε) (ts : ε → String) (tsv : τ → String) (stack msg : String),
        (TSResult.expect ts stack r msg).isOk = r.ok
        ∧ (TSResult.unwrap ts stack r).isOk = r.ok
        ∧ (TSResult.expectErr r msg).isOk = r.err
        ∧ (TSResult.unwrapErr tsv r).isOk = r.err)
    ∧ (∀ (v d : α) (d2 : β) (f : α → β) (df : Unit → β) (g : α → TSOption β)
          (o2 : TSOption α) (th : Unit → TSOption α) (e : ε) (ts : α → String),
        ((TSOption.Some v).unwrapOr d = v) ∧ ((TSOption.None : TSOption α).unwrapOr d = d)
        ∧ ((TSOption.Some v).map f = TSOption.Some (f v))
        ∧ ((TSOption.None : TSOption α).map f = TSOption.None)
        ∧ ((TSOption.Some v).mapOr d2 f = f v) ∧ ((TSOption.None : TSOption α).mapOr d2 f = d2)
        ∧ ((TSOption.Some v).mapOrElse df f = f v)
        ∧ ((TSOption.None : TSOption α).mapOrElse df f = df ())
        ∧ ((TSOption.Some v).andThen g = g v)
        ∧ ((TSOption.None : TSOption α).andThen g = TSOption.None)
        ∧ ((TSOption.Some v).or o2 = TSOption.Some v) ∧ ((TSOption.None : TSOption α).or o2 = o2)
        ∧ ((TSOption.Some v).orElse th = TSOption.Some v)
        ∧ ((TSOption.None : TSOption α).orElse th = th ())
        ∧ ((TSOption.Some v).toResult e = TSResult.Ok v)
        ∧ ((TSOption.None : TSOption α).toResult e = TSResult.Err e)
        ∧ (TSOption.toString ts (TSOption.Some v) = "Some(" ++ ts v ++ ")")
        ∧ (TSOption.toString ts (TSOption.None : TSOption α) = "None"))
    ∧ (∀ (v d : τ) (e : ε) (d2 : β) (f : τ → β) (df : Unit → β) (fe : ε → β)
          (g : τ → TSResult β ε) (r2 : TSResult τ ε) (th : Unit → TSResult τ ε)
          (tsv : τ → String) (tse : ε → String),
        ((TSResult.Ok v : TSResult τ ε).unwrapOr d = v)
        ∧ ((TSResult.Err e : TSResult τ ε).unwrapOr d = d)
        ∧ ((TSResult.Ok v : TSResult τ ε).elseMethod d = v)
        ∧ ((TSResult.Err e : TSResult τ ε).elseMethod d = d)
        ∧ ((TSResult.Ok v : TSResult τ ε).map f = TSResult.Ok (f v))
        ∧ ((TSResult.Err e : TSResult τ ε).map f = TSResult.Err e)
        ∧ ((TSResult.Ok v : TSResult τ ε).mapErr fe = TSResult.Ok v)
        ∧ ((TSResult.Err e : TSResult τ ε).mapErr fe = TSResult.Err (fe e))
        ∧ ((TSResult.Ok v : TSResult τ ε).mapOr d2 f = f v)
        ∧ ((TSResult.Err e : TSResult τ ε).mapOr d2 f = d2)
        ∧ ((TSResult.Ok v : TSResult τ ε).mapOrElse df f = f v)
        ∧ ((TSResult.Err e : TSResult τ ε).mapOrElse df f = df ())
        ∧ ((TSResult.Ok v : TSResult τ ε).andThen g = g v)
        ∧ ((TSResult.Err e : TSResult τ ε).andThen g = TSResult.Err e)
        ∧ ((TSResult.Ok v : TSResult τ ε).or r2 = TSResult.Ok v)
        ∧ ((TSResult.Err e : TSResult τ ε).or r2 = r2)
        ∧ ((TSResult.Ok v : TSResult τ ε).orElse th = TSResult.Ok v)
        ∧ ((TSResult.Err e : TSResult τ ε).orElse th = th ())
        ∧ ((TSResult.Ok v : TSResult τ ε).toOption = TSOption.Some v)
        ∧ ((TSResult.Err e : TSResult τ ε).toOption = TSOption.None)
        ∧ (TSResult.toString tsv tse (TSResult.Ok v : TSResult τ ε) = "Ok(" ++ tsv v ++ ")")
        ∧ (TSResult.toString tsv tse (TSResult.Err e : TSResult τ ε) = "Err(" ++ tse e ++ ")")) := by
  refine ⟨?_, ?_, ?_, ?_⟩
  · intro o msg
    cases o <;> exact ⟨rfl, rfl⟩
  · intro r ts tsv stack msg
    cases r <;> exact ⟨rfl, rfl, rfl, rfl⟩
  · intros
    repeat' apply And.intro
    all_goals rfl
  · intros
    repeat' apply And.intro
    all_goals rfl

/-- C8: `None.map(fn)` returns `None` without invoking `fn` (the result is
independent of `fn`), and likewise `Err.map`, `None.andThen` and
`Err.andThen` never invoke their mapper; `Some(v).orElse(otherFn)` returns
the receiver independently of `otherFn`, while `None.orElse(otherFn)`
invokes `otherFn` and returns its result. -/
theorem C8_lazy_callbacks {α β τ ε : Type} :
    (∀ f : α → β, (TSOption.None : TSOption α).map f = TSOption.None)
    ∧ (∀ f g : α → β, (TSOption.None : TSOption α).map f = (TSOption.None : TSOption α).map g)
    ∧ (∀ (e : ε) (f : τ → β), (TSResult.Err e : TSResult τ ε).map f = TSResult.Err e)
    ∧ (∀ (e : ε) (f g : τ → β),
        (TSResult.Err e : TSResult τ ε).map f = (TSResult.Err e : TSResult τ ε).map g)
    ∧ (∀ f : α → TSOption β, (TSOption.None : TSOption α).andThen f = TSOption.None)
    ∧ (∀ (e : ε) (f : τ → TSResult β ε),
        (TSResult.Err e : TSResult τ ε).andThen f = TSResult.Err e)
    ∧ (∀ (v : α) (th : Unit → TSOption α), (TSOption.Some v).orElse th = TSOption.Some v)
    ∧ (∀ (v : α) (th th2 : Unit → TSOption α),
        (TSOption.Some v).orElse th = (TSOption.Some v).orElse th2)
    ∧ (∀ th : Unit → TSOption α, (TSOption.None : TSOption α).orElse th = th ()) :=
  ⟨fun _ => rfl, fun _ _ => rfl, fun _ _ => rfl, fun _ _ _ => rfl, fun _ => rfl,
   fun _ _ => rfl, fun _ _ => rfl, fun _ _ _ => rfl, fun _ => rfl⟩

/-- C9: iterating over a `Some` or `Ok` yields the inner value's own
element sequence when the inner value is iterable, and zero elements when
it is not; iterating over `None` or `Err` always yields zero elements. -/
theorem C9_iteration_yields_inner_elements {α ε ι : Type} :
    ∀ (ie : α → Option (List ι)) (v : α),
      (∀ elems, ie v = Option.some elems → TSOption.iter ie (TSOption.Some v) = elems)
      ∧ (ie v = Option.none → TSOption.iter ie (TSOption.Some v) = [])
      ∧ (TSOption.iter ie (TSOption.None : TSOption α) = [])
      ∧ (∀ elems, ie v = Option.some elems →
          TSResult.iter ie (TSResult.Ok v : TSResult α ε) = elems)
      ∧ (ie v = Option.none → TSResult.iter ie (TSResult.Ok v : TSResult α ε) = [])
      ∧ (∀ e : ε, TSResult.iter ie (TSResult.Err e : TSResult α ε) = []) := by
  intro ie v
  refine ⟨?_, ?_, rfl, ?_, ?_, fun e => rfl⟩
  · intro elems h
    simp [TSOption.iter, h]
  · intro h
    simp [TSOption.iter, h]
  · intro elems h
    simp [TSResult.iter, h]
  · intro h
    simp [TSResult.iter, h]

/-- Witness for C9: iterating over `Ok([1,2,3])` (iterable payload) yields
`[1,2,3]`, and iterating over `Some(5)` with a non-iterable payload yields
nothing. -/
theorem C9_iteration_witness :
    TSResult.iter (fun l : List Nat => Option.some l)
        (TSResult.Ok [1, 2, 3] : TSResult (List Nat) String) = [1, 2, 3]
    ∧ TSOption.iter (fun _ : Nat => (Option.none : Option (List Nat)))
        (TSOption.Some 5) = [] :=
  ⟨((C9_iteration_yields_inner_elements (ε := String)
        (fun l : List Nat => Option.some l) [1, 2, 3]).2.2.2.1 [1, 2, 3] rfl),
   ((C9_iteration_yields_inner_elements (ε := String) (ι := Nat)
        (fun _ : Nat => (Option.none : Option (List Nat))) 5).2.1 rfl)⟩

/-- C10: on the empty input sequence the aggregators return the wrapper of
an empty list: `Option.all() = Some([])`, `Result.all() = Ok([])`, and
`Result.any() = Err([])`. -/
theorem C10_empty_aggregators {α τ ε : Type} :
    TSOption.all ([] : List (TSOption α)) = TSOption.Some []
    ∧ TSResult.all ([] : List (TSResult τ ε)) = TSResult.Ok []
    ∧ TSResult.any ([] : List (TSResult τ ε)) = TSResult.Err [] :=
  ⟨rfl, rfl, rfl⟩

end TsResultsEs
